import Mathlib

/-!
Verification of the segmentation/metrics engine and the generation pipeline
of `marketing_ai_demo.py`, a pandas/Streamlit marketing demo.

The embedding models a pandas `DataFrame` as a list of column names plus a
list of rows; a cell holds a rational number, a string, or `nan` (pandas
missing value).  Column access (`df['c']`) fails with a `KeyError` when the
column is absent, exactly as in pandas; elementwise comparisons follow the
pandas semantics on `NaN` (`>=`, `<`, `==`, `isin` are false on `NaN`,
`!=` is true on `NaN`).  Fallible Python code is embedded in `Except`.
-/

namespace MarketingDemo

/-- One cell of the customer table: a number, a string, or a pandas NaN. -/
inductive Value where
  | num (q : ℚ)
  | str (s : String)
  | nan
deriving DecidableEq, Repr

/-- One row of the table, keyed by column name.  A cell that does not
appear in the association list reads as `nan`, matching a pandas row in
which the column exists but the value is missing. -/
abbrev Row := List (String × Value)

/-- Cell lookup on a row (pandas `row['c']` with NaN for a missing cell). -/
def getCell (r : Row) (c : String) : Value :=
  match r.lookup c with
  | some v => v
  | none => Value.nan

/-- A pandas DataFrame: the set of columns plus the ordered rows. -/
structure DataFrame where
  cols : List String
  rows : List Row
deriving DecidableEq, Repr

/-- Pandas elementwise `series >= q`: false on NaN and non-numeric cells. -/
def valGe (v : Value) (q : ℚ) : Bool :=
  match v with
  | .num x => q ≤ x
  | _ => false

/-- Pandas elementwise `series < q`: false on NaN and non-numeric cells. -/
def valLt (v : Value) (q : ℚ) : Bool :=
  match v with
  | .num x => x < q
  | _ => false

/-- Pandas elementwise `series == s`: false on NaN and non-string cells. -/
def valEqStr (v : Value) (s : String) : Bool :=
  match v with
  | .str t => t = s
  | _ => false

/-- Pandas elementwise `series != s`: the negation of `==`, hence TRUE on
a NaN cell (`NaN != 'US'` evaluates true in pandas). -/
def valNeStr (v : Value) (s : String) : Bool := !(valEqStr v s)

/-- Pandas elementwise `series.isin(ss)`: false on NaN. -/
def valIsinStr (v : Value) (ss : List String) : Bool :=
  match v with
  | .str t => ss.contains t
  | _ => false

/-- `df['c']` as a list of cell values: raises `KeyError` when the column
is absent from the frame. -/
def colValues (df : DataFrame) (c : String) : Except String (List Value) :=
  if c ∈ df.cols then .ok (df.rows.map (fun r => getCell r c))
  else .error ("KeyError: " ++ c)

/-- Boolean-mask filtering `df[df['c'] <op> v]`: evaluates the column
(raising `KeyError` when absent), keeps the rows whose cell satisfies the
elementwise predicate. -/
def filterBy (df : DataFrame) (c : String) (p : Value → Bool) :
    Except String DataFrame :=
  if c ∈ df.cols then
    .ok ⟨df.cols, df.rows.filter (fun r => p (getCell r c))⟩
  else .error ("KeyError: " ++ c)

/-- The five behavioral segments built by `analyze_customer_segments`. -/
structure Segments where
  high_value : DataFrame
  at_risk : DataFrame
  new_customers : DataFrame
  loyal_customers : DataFrame
  international : DataFrame
deriving DecidableEq, Repr

/-- `analyze_customer_segments(df)` (marketing_ai_demo.py lines 30-39):
builds the segment dict by five boolean-mask selections, evaluated in the
order they appear in the Python dict literal; the first missing column
raises `KeyError` out of the function. -/
def analyze_customer_segments (df : DataFrame) : Except String Segments := do
  let hv ← filterBy df "engagement_score" (fun v => valGe v 80)
  let ar ← filterBy df "engagement_score" (fun v => valLt v 60)
  let nc ← filterBy df "customer_segment" (fun v => valEqStr v "newcomer")
  let lc ← filterBy df "loyalty_tier" (fun v => valIsinStr v ["gold", "platinum"])
  let intl ← filterBy df "country" (fun v => valNeStr v "US")
  return ⟨hv, ar, nc, lc, intl⟩

/-- The numeric cells of a column, in order (pandas skips NaN in
aggregations). -/
def numericVals (vs : List Value) : List ℚ :=
  vs.filterMap (fun v => match v with | .num q => some q | _ => none)

/-- Pandas `series.sum()`: sums the numeric cells, 0 on an empty or
all-NaN series. -/
def seriesSum (vs : List Value) : ℚ := (numericVals vs).sum

/-- Pandas `series.mean()`: the mean of the non-NaN cells; `none` models
the NaN that pandas returns on an empty or all-NaN series. -/
def seriesMean (vs : List Value) : Option ℚ :=
  if (numericVals vs).isEmpty then none
  else some ((numericVals vs).sum / ((numericVals vs).length : ℚ))

/-- The dict returned by `calculate_roi_metrics`. -/
structure RoiMetrics where
  total_customers : Nat
  high_engagement_rate : ℚ
  avg_engagement : Option ℚ
  revenue_potential : ℚ
deriving DecidableEq, Repr

/-- `calculate_roi_metrics(df)` (marketing_ai_demo.py lines 41-52):
`total` is the row count; `high_engagement` counts rows with
`engagement_score >= 70`; the rate is the PERCENTAGE
`(high/total)*100` guarded against `total = 0`; `avg_engagement` is the
pandas mean of the engagement column (NaN on empty); `revenue_potential`
is the purchase-history sum times the hard-coded 50.  Missing columns
raise `KeyError`. -/
def calculate_roi_metrics (df : DataFrame) : Except String RoiMetrics := do
  let total := df.rows.length
  let highDf ← filterBy df "engagement_score" (fun v => valGe v 70)
  let conversion_rate : ℚ :=
    if 0 < total then ((highDf.rows.length : ℚ) / (total : ℚ)) * 100 else 0
  let engVals ← colValues df "engagement_score"
  let purchVals ← colValues df "purchase_history"
  return ⟨total, conversion_rate, seriesMean engVals, seriesSum purchVals * 50⟩

/-- `df.head(n)`: the first `n` rows of the frame, in input order. -/
def dfHead (df : DataFrame) (n : Nat) : DataFrame := ⟨df.cols, df.rows.take n⟩

/-- How a cell is rendered into prompt text. -/
def valueText (v : Value) : String :=
  match v with
  | .num q => toString q
  | .str s => s
  | .nan => "nan"

/-- One row rendered into prompt text (`to_string` of one table line). -/
def rowText (r : Row) : String :=
  String.intercalate " " (r.map (fun p => valueText p.2))

/-- A block of rows rendered into prompt text (`df.to_string(index=False)`). -/
def rowsText (rows : List Row) : String :=
  String.intercalate "\n" (rows.map rowText)

/-- The UI settings of the Email Campaigns page. -/
structure EmailCfg where
  campaign_type : String
  tone : String
  personalization_level : Nat
  include_offers : Bool
  include_urgency : Bool
  include_social_proof : Bool
deriving DecidableEq, Repr

/-- The per-customer email prompt f-string (lines 181-200): embeds the
fields of exactly one customer row plus the campaign settings. -/
def emailPrompt (cfg : EmailCfg) (customer : Row) : String :=
  "Create a personalized " ++ cfg.campaign_type ++ " email for this customer:\n" ++
  "Customer: " ++ valueText (getCell customer "customer_name") ++ "\n" ++
  "Product Interest: " ++ valueText (getCell customer "product_interest") ++ "\n" ++
  "Location: " ++ valueText (getCell customer "region") ++ ", " ++
    valueText (getCell customer "country") ++ "\n" ++
  "Engagement Score: " ++ valueText (getCell customer "engagement_score") ++ "\n" ++
  "Loyalty Tier: " ++ valueText (getCell customer "loyalty_tier") ++ "\n" ++
  "Purchase History: " ++ valueText (getCell customer "purchase_history") ++ " purchases\n" ++
  "Preferred Language: " ++ valueText (getCell customer "preferred_language") ++ "\n" ++
  "Requirements:\n" ++
  "- Tone: " ++ cfg.tone ++ "\n" ++
  "- Personalization Level: " ++ toString cfg.personalization_level ++ "/5\n" ++
  "- Include offers: " ++ toString cfg.include_offers ++ "\n" ++
  "- Add urgency: " ++ toString cfg.include_urgency ++ "\n" ++
  "- Include social proof: " ++ toString cfg.include_social_proof ++ "\n" ++
  "Generate a complete email with subject line, body, and call-to-action."

/-- One entry appended to `personalized_emails` on a successful client call. -/
structure EmailEntry where
  customer : String
  email : String
deriving DecidableEq, Repr

/-- The state of the email generation loop: the `personalized_emails` list
under construction and the error messages shown by `st.error`. -/
structure EmailOutcome where
  personalized_emails : List EmailEntry
  errors : List String
deriving DecidableEq, Repr

/-- One iteration of the email loop (lines 202-212): the client call is
wrapped in `try`: on success an entry is appended to the result list; on
failure an error message is displayed and NOTHING is appended. -/
def emailLoopStep (client : String → Except String String) (cfg : EmailCfg)
    (acc : EmailOutcome) (customer : Row) : EmailOutcome :=
  match client (emailPrompt cfg customer) with
  | .ok content =>
      ⟨acc.personalized_emails ++
        [⟨valueText (getCell customer "customer_name"), content⟩], acc.errors⟩
  | .error e =>
      ⟨acc.personalized_emails,
        acc.errors ++ ["Error generating email for " ++
          valueText (getCell customer "customer_name") ++ ": " ++ e]⟩

/-- The email campaign generation loop (lines 178-212):
`for idx, customer in target_df.head(5).iterrows(): ...`. -/
def email_campaign_generate (client : String → Except String String)
    (cfg : EmailCfg) (target_df : DataFrame) : EmailOutcome :=
  (target_df.rows.take 5).foldl (emailLoopStep client cfg) ⟨[], []⟩

/-- The report entry a target contributes when its client call succeeds. -/
def emailSuccessOf (client : String → Except String String) (cfg : EmailCfg)
    (customer : Row) : Option EmailEntry :=
  match client (emailPrompt cfg customer) with
  | .ok content => some ⟨valueText (getCell customer "customer_name"), content⟩
  | .error _ => none

/-- The `st.error` message a target contributes when its client call fails. -/
def emailErrorOf (client : String → Except String String) (cfg : EmailCfg)
    (customer : Row) : Option String :=
  match client (emailPrompt cfg customer) with
  | .ok _ => none
  | .error e => some ("Error generating email for " ++
      valueText (getCell customer "customer_name") ++ ": " ++ e)

/-- The UI settings of the Social Media Content page. -/
structure SocialCfg where
  platform : String
  content_type : String
  target_audience : String
  post_count : Nat
  include_hashtags : Bool
  include_cta : Bool
  emoji_style : String
deriving DecidableEq, Repr

/-- The text of the social prompt before the embedded rows. -/
def socialPromptHeader (cfg : SocialCfg) : String :=
  "Create " ++ toString cfg.post_count ++ " " ++ cfg.platform ++ " " ++
    cfg.content_type ++ " posts for this audience:\n"

/-- The text of the social prompt after the embedded rows. -/
def socialPromptFooter (cfg : SocialCfg) : String :=
  "\nRequirements:\n" ++
  "- Platform: " ++ cfg.platform ++ "\n" ++
  "- Content Type: " ++ cfg.content_type ++ "\n" ++
  "- Target: " ++ cfg.target_audience ++ "\n" ++
  "- Include hashtags: " ++ toString cfg.include_hashtags ++ "\n" ++
  "- Include CTA: " ++ toString cfg.include_cta ++ "\n" ++
  "- Emoji style: " ++ cfg.emoji_style ++ "\n" ++
  "Make each post unique and engaging for the platform."

/-- The social media prompt (lines 241-254): embeds
`df.head(10).to_string(index=False)` between the fixed header and the
requirements block. -/
def socialPrompt (cfg : SocialCfg) (df : DataFrame) : String :=
  socialPromptHeader cfg ++ rowsText (dfHead df 10).rows ++ socialPromptFooter cfg

/-- What the Social Media page displays after the button press. -/
inductive SocialOutcome where
  | success (banner : String) (content : String)
  | errorShown (msg : String)
deriving DecidableEq, Repr

/-- The success banner of the Social Media page. -/
def socialSuccessBanner (cfg : SocialCfg) : String :=
  "Generated " ++ toString cfg.post_count ++ " " ++ cfg.platform ++ " posts!"

/-- The social media generation branch (lines 256-264): one client call;
on success the RAW reply text is rendered as markdown, with no parsing,
extraction or validation step of any kind; an exception is caught and
shown as an error message. -/
def social_media_generate (client : String → Except String String)
    (cfg : SocialCfg) (df : DataFrame) : SocialOutcome :=
  match client (socialPrompt cfg df) with
  | .ok reply => .success (socialSuccessBanner cfg) reply
  | .error e => .errorShown ("Error: " ++ e)

/-- The UI settings of the Ad Copy Generator page. -/
structure AdCfg where
  ad_platform : String
  ad_objective : String
  target_segment : String
  ad_variations : Nat
  headline_style : String
  include_emoji : Bool
deriving DecidableEq, Repr

/-- The text of the ad copy prompt before the embedded rows. -/
def adPromptHeader (cfg : AdCfg) : String :=
  "Create " ++ toString cfg.ad_variations ++ " " ++ cfg.ad_platform ++
    " ad variations for this customer data:\n"

/-- The text of the ad copy prompt after the embedded rows. -/
def adPromptFooter (cfg : AdCfg) : String :=
  "\nRequirements:\n" ++
  "- Platform: " ++ cfg.ad_platform ++ "\n" ++
  "- Objective: " ++ cfg.ad_objective ++ "\n" ++
  "- Target: " ++ cfg.target_segment ++ "\n" ++
  "- Headline Style: " ++ cfg.headline_style ++ "\n" ++
  "- Include emojis: " ++ toString cfg.include_emoji ++ "\n" ++
  "For each variation, include:\n" ++
  "1. Headline (30-60 characters)\n2. Description (90-150 characters)\n" ++
  "3. Call-to-Action\n4. Key benefits"

/-- The ad copy prompt (lines 292-308): embeds
`target_df.head(5).to_string(index=False)` between the fixed header and
the requirements block. -/
def adPrompt (cfg : AdCfg) (target_df : DataFrame) : String :=
  adPromptHeader cfg ++ rowsText (dfHead target_df 5).rows ++ adPromptFooter cfg

/-! ### Concrete fixtures used by the witnesses and counterexamples -/

/-- The column set of the demo's customer CSV. -/
def stdCols : List String :=
  ["customer_name", "engagement_score", "customer_segment", "loyalty_tier",
   "country", "purchase_history", "product_interest", "region",
   "preferred_language"]

/-- A customer row with every standard column populated. -/
def mkRow (name : String) (eng : Value) (seg : Value) (tier : Value)
    (country : Value) (purch : Value) : Row :=
  [("customer_name", Value.str name), ("engagement_score", eng),
   ("customer_segment", seg), ("loyalty_tier", tier), ("country", country),
   ("purchase_history", purch), ("product_interest", Value.str "gadgets"),
   ("region", Value.str "West"), ("preferred_language", Value.str "en")]

/-- Target 1 of the three-target email batch. -/
def rowAlice : Row :=
  mkRow "Alice" (.num 90) (.str "regular") (.str "gold") (.str "US") (.num 3)

/-- Target 2 of the three-target email batch (its client call fails). -/
def rowBob : Row :=
  mkRow "Bob" (.num 85) (.str "regular") (.str "silver") (.str "US") (.num 2)

/-- Target 3 of the three-target email batch. -/
def rowCara : Row :=
  mkRow "Cara" (.num 75) (.str "regular") (.str "gold") (.str "CA") (.num 1)

/-- The three-target record set of the end-to-end scenario. -/
def dfC1 : DataFrame := ⟨stdCols, [rowAlice, rowBob, rowCara]⟩

/-- The campaign settings of the end-to-end scenario. -/
def cfgC1 : EmailCfg := ⟨"welcome series", "friendly", 3, true, false, true⟩

/-- A generation client that fails exactly on target 2's prompt and
succeeds on every other prompt. -/
def clientC1 (p : String) : Except String String :=
  if p = emailPrompt cfgC1 rowBob then .error "API down" else .ok "EMAIL BODY"

/-- A record set whose frame lacks the `engagement_score` column. -/
def dfNoEng : DataFrame :=
  ⟨["customer_name", "purchase_history"],
   [[("customer_name", Value.str "Ann"), ("purchase_history", Value.num 2)]]⟩

/-- A record set whose frame lacks the `purchase_history` column. -/
def dfNoPurch : DataFrame :=
  ⟨["customer_name", "engagement_score"],
   [[("customer_name", Value.str "Ann"), ("engagement_score", Value.num 75)]]⟩

/-- A record whose `country` cell is missing (NaN). -/
def rowNanCountry : Row :=
  mkRow "Noa" (.num 50) (.str "regular") (.str "silver") .nan (.num 1)

/-- A one-record set whose only record has a NaN `country`. -/
def dfC3 : DataFrame := ⟨stdCols, [rowNanCountry]⟩

/-- A record whose `engagement_score` cell is missing (NaN). -/
def rowNanEng : Row :=
  mkRow "Nia" .nan (.str "regular") (.str "silver") (.str "US") (.num 1)

/-- A record set holding one NaN-engagement record. -/
def dfC3w : DataFrame := ⟨stdCols, [rowNanEng]⟩

/-- Two records, one at the engagement threshold and one far below it. -/
def dfC4 : DataFrame :=
  ⟨stdCols,
   [mkRow "Hi" (.num 70) (.str "regular") (.str "silver") (.str "US") (.num 1),
    mkRow "Lo" (.num 0) (.str "regular") (.str "silver") (.str "US") (.num 1)]⟩

/-- The empty record set (columns present, zero rows). -/
def dfEmpty : DataFrame := ⟨stdCols, []⟩

/-- A seven-record set used to exercise the prompt caps. -/
def dfC7 : DataFrame :=
  ⟨stdCols, List.replicate 7
    (mkRow "Rep" (.num 60) (.str "regular") (.str "silver") (.str "US") (.num 1))⟩

/-- A record that is simultaneously high-value (engagement 90 ≥ 80) and
loyal (tier gold). -/
def rowEve : Row :=
  mkRow "Eve" (.num 90) (.str "regular") (.str "gold") (.str "US") (.num 5)

/-- A one-record set whose record satisfies two segment predicates. -/
def dfC8 : DataFrame := ⟨stdCols, [rowEve]⟩

/-- Three records with purchase counts 2, 0 and 4. -/
def dfC9 : DataFrame :=
  ⟨stdCols,
   [mkRow "P1" (.num 90) (.str "regular") (.str "silver") (.str "US") (.num 2),
    mkRow "P2" (.num 90) (.str "regular") (.str "silver") (.str "US") (.num 0),
    mkRow "P3" (.num 90) (.str "regular") (.str "silver") (.str "US") (.num 4)]⟩

/-- A single high-engagement record (score 95). -/
def rowHigh : Row :=
  mkRow "Max" (.num 95) (.str "regular") (.str "silver") (.str "US") (.num 2)

/-- A one-record set whose record is high-value. -/
def dfC10 : DataFrame := ⟨stdCols, [rowHigh]⟩

/-- The segment map `analyze_customer_segments` computes on `dfC10`. -/
def segsC10 : Segments :=
  ⟨⟨stdCols, [rowHigh]⟩, ⟨stdCols, []⟩, ⟨stdCols, []⟩, ⟨stdCols, []⟩,
   ⟨stdCols, []⟩⟩

/-- The raw reply of the parse scenario: a JSON object surrounded by
prose. -/
def rawProseJson : String :=
  "Sure! \x7b\"items\":[\x7b\"body\":\"hi\"\x7d]\x7d Hope that helps."

/-- The social media settings of the parse scenarios. -/
def cfgC6 : SocialCfg :=
  ⟨"Instagram", "Promotional", "All", 3, true, true, "Minimal"⟩

/-! ### Helper lemmas -/

/-- Reduction of `Except` bind on a success value. -/
theorem ok_bind {α β : Type} (a : α) (f : α → Except String β) :
    (Except.ok a >>= f) = f a := rfl

/-- Reduction of `Except` bind on an error value. -/
theorem error_bind {α β : Type} (e : String) (f : α → Except String β) :
    ((Except.error e : Except String α) >>= f) = Except.error e := rfl

/-- Characterization of `analyze_customer_segments` when every referenced
column is present: each segment is an independent filter of the rows. -/
theorem analyze_ok (df : DataFrame)
    (h1 : "engagement_score" ∈ df.cols) (h2 : "customer_segment" ∈ df.cols)
    (h3 : "loyalty_tier" ∈ df.cols) (h4 : "country" ∈ df.cols) :
    analyze_customer_segments df = Except.ok
      ⟨⟨df.cols, df.rows.filter (fun r => valGe (getCell r "engagement_score") 80)⟩,
       ⟨df.cols, df.rows.filter (fun r => valLt (getCell r "engagement_score") 60)⟩,
       ⟨df.cols, df.rows.filter (fun r => valEqStr (getCell r "customer_segment") "newcomer")⟩,
       ⟨df.cols, df.rows.filter (fun r => valIsinStr (getCell r "loyalty_tier") ["gold", "platinum"])⟩,
       ⟨df.cols, df.rows.filter (fun r => valNeStr (getCell r "country") "US")⟩⟩ := by
  simp [analyze_customer_segments, filterBy, h1, h2, h3, h4, ok_bind]

/-- `analyze_customer_segments` propagates the first `KeyError` when the
engagement column is absent. -/
theorem analyze_err_eng (df : DataFrame)
    (h : "engagement_score" ∉ df.cols) :
    analyze_customer_segments df = Except.error "KeyError: engagement_score" := by
  simp [analyze_customer_segments, filterBy, h, error_bind]

/-- Characterization of `calculate_roi_metrics` when both referenced
columns are present. -/
theorem calculate_ok (df : DataFrame)
    (h1 : "engagement_score" ∈ df.cols) (h2 : "purchase_history" ∈ df.cols) :
    calculate_roi_metrics df = Except.ok
      ⟨df.rows.length,
       if 0 < df.rows.length then
         (((df.rows.filter (fun r => valGe (getCell r "engagement_score") 70)).length : ℚ) /
             (df.rows.length : ℚ)) * 100
       else 0,
       seriesMean (df.rows.map (fun r => getCell r "engagement_score")),
       seriesSum (df.rows.map (fun r => getCell r "purchase_history")) * 50⟩ := by
  simp [calculate_roi_metrics, filterBy, colValues, h1, h2, ok_bind]

/-- `calculate_roi_metrics` only succeeds when both referenced columns are
present in the frame. -/
theorem calculate_ok_cols (df : DataFrame) (m : RoiMetrics)
    (h : calculate_roi_metrics df = Except.ok m) :
    "engagement_score" ∈ df.cols ∧ "purchase_history" ∈ df.cols := by
  by_cases h1 : "engagement_score" ∈ df.cols
  · by_cases h2 : "purchase_history" ∈ df.cols
    · exact ⟨h1, h2⟩
    · simp [calculate_roi_metrics, filterBy, colValues, h1, h2, ok_bind,
        error_bind] at h
  · simp [calculate_roi_metrics, filterBy, h1, error_bind] at h

/-- `analyze_customer_segments` only succeeds when every referenced column
is present in the frame. -/
theorem analyze_ok_cols (df : DataFrame) (segs : Segments)
    (h : analyze_customer_segments df = Except.ok segs) :
    "engagement_score" ∈ df.cols ∧ "customer_segment" ∈ df.cols ∧
      "loyalty_tier" ∈ df.cols ∧ "country" ∈ df.cols := by
  by_cases h1 : "engagement_score" ∈ df.cols
  · by_cases h2 : "customer_segment" ∈ df.cols
    · by_cases h3 : "loyalty_tier" ∈ df.cols
      · by_cases h4 : "country" ∈ df.cols
        · exact ⟨h1, h2, h3, h4⟩
        · simp [analyze_customer_segments, filterBy, h1, h2, h3, h4,
            ok_bind, error_bind] at h
      · simp [analyze_customer_segments, filterBy, h1, h2, h3, ok_bind,
          error_bind] at h
    · simp [analyze_customer_segments, filterBy, h1, h2, ok_bind,
        error_bind] at h
  · simp [analyze_customer_segments, filterBy, h1, error_bind] at h

/-- Unrolling the email loop: the report accumulates exactly the
successful targets and the error display accumulates exactly the failed
ones, both in input order. -/
theorem emailLoop_foldl (client : String → Except String String)
    (cfg : EmailCfg) (rs : List Row) (acc : EmailOutcome) :
    rs.foldl (emailLoopStep client cfg) acc =
      ⟨acc.personalized_emails ++ rs.filterMap (emailSuccessOf client cfg),
       acc.errors ++ rs.filterMap (emailErrorOf client cfg)⟩ := by
  induction rs generalizing acc with
  | nil => simp
  | cons r rs ih =>
      rw [List.foldl_cons, ih]
      unfold emailLoopStep emailSuccessOf emailErrorOf
      cases h : client (emailPrompt cfg r) <;>
        simp [List.filterMap_cons, h]

/-- Each processed target contributes exactly one outcome: a report entry
or an error message, never both and never neither. -/
theorem emailLoop_count (client : String → Except String String)
    (cfg : EmailCfg) (rs : List Row) :
    (rs.filterMap (emailSuccessOf client cfg)).length +
      (rs.filterMap (emailErrorOf client cfg)).length = rs.length := by
  induction rs with
  | nil => simp
  | cons r rs ih =>
      unfold emailSuccessOf emailErrorOf
      cases h : client (emailPrompt cfg r) <;>
        simp [List.filterMap_cons, h] <;>
        unfold emailSuccessOf emailErrorOf at ih <;> omega

/-! ### Claim theorems -/

/-- C10: for every record set on which segmentation succeeds, the
`high_value` subset (engagement ≥ 80) and the `at_risk` subset
(engagement < 60) are disjoint: no record appears in both. -/
theorem high_value_at_risk_disjoint (df : DataFrame) (segs : Segments)
    (h : analyze_customer_segments df = Except.ok segs) (r : Row)
    (hr : r ∈ segs.high_value.rows) : r ∉ segs.at_risk.rows := by
  obtain ⟨h1, h2, h3, h4⟩ := analyze_ok_cols df segs h
  rw [analyze_ok df h1 h2 h3 h4] at h
  simp only [Except.ok.injEq] at h
  subst h
  simp only [List.mem_filter] at hr
  intro hc
  simp only [List.mem_filter] at hc
  rcases hr with ⟨-, hge⟩
  rcases hc with ⟨-, hlt⟩
  unfold valGe at hge
  unfold valLt at hlt
  rcases hv : getCell r "engagement_score" with q | s | _ <;> rw [hv] at hge hlt
  · simp only [decide_eq_true_eq] at hge hlt
    linarith
  · exact Bool.false_ne_true hge
  · exact Bool.false_ne_true hlt

/-- C10 witness: on the concrete one-record set `dfC10` the high-value
record is not at-risk. -/
theorem high_value_at_risk_disjoint_witness :
    rowHigh ∉ segsC10.at_risk.rows :=
  high_value_at_risk_disjoint dfC10 segsC10 rfl rowHigh (by decide)

/-- The segment map `analyze_customer_segments` computes on `dfC8`. -/
def segsC8 : Segments :=
  ⟨⟨stdCols, [rowEve]⟩, ⟨stdCols, []⟩, ⟨stdCols, []⟩, ⟨stdCols, [rowEve]⟩,
   ⟨stdCols, []⟩⟩

/-- C8: on a concrete record set, the record `rowEve` (engagement 90,
loyalty tier gold) appears in BOTH the `high_value` and the
`loyal_customers` subsets: segmentation never forces an exclusive
partition. -/
theorem segments_may_overlap :
    analyze_customer_segments dfC8 = Except.ok segsC8 ∧
      rowEve ∈ segsC8.high_value.rows ∧ rowEve ∈ segsC8.loyal_customers.rows :=
  ⟨rfl, by decide, by decide⟩

/-- The segment map `analyze_customer_segments` computes on `dfC3`: the
NaN-country record lands in `at_risk` (50 < 60) AND in `international`,
because pandas `!=` is true on NaN. -/
def segsC3 : Segments :=
  ⟨⟨stdCols, []⟩, ⟨stdCols, [rowNanCountry]⟩, ⟨stdCols, []⟩, ⟨stdCols, []⟩,
   ⟨stdCols, [rowNanCountry]⟩⟩

/-- C3 counterexample: a record whose `country` cell is missing (NaN) is
NOT excluded from the `international` segment — pandas `NaN != 'US'`
evaluates true, so the record is included in that subset. -/
theorem nan_country_included_in_international :
    analyze_customer_segments dfC3 = Except.ok segsC3 ∧
      rowNanCountry ∈ segsC3.international.rows :=
  ⟨rfl, by decide⟩

/-- C3 amended: for every record set whose frame carries the referenced
columns (records may still lack the field: their cell is NaN),
segmentation never raises — it returns a segment map — and a record with
a NaN cell is excluded from the segments defined by the `>=`, `<`, `==`
and `isin` predicates, but is INCLUDED in the `!=`-defined
`international` segment; the other segments are the independent filters
of the same rows, unaffected by that record. -/
theorem segment_nan_semantics (df : DataFrame)
    (h1 : "engagement_score" ∈ df.cols) (h2 : "customer_segment" ∈ df.cols)
    (h3 : "loyalty_tier" ∈ df.cols) (h4 : "country" ∈ df.cols) :
    ∃ segs, analyze_customer_segments df = Except.ok segs ∧
      ∀ r ∈ df.rows,
        (getCell r "engagement_score" = Value.nan →
          r ∉ segs.high_value.rows ∧ r ∉ segs.at_risk.rows) ∧
        (getCell r "customer_segment" = Value.nan →
          r ∉ segs.new_customers.rows) ∧
        (getCell r "loyalty_tier" = Value.nan →
          r ∉ segs.loyal_customers.rows) ∧
        (getCell r "country" = Value.nan → r ∈ segs.international.rows) := by
  refine ⟨_, analyze_ok df h1 h2 h3 h4, ?_⟩
  intro r hr
  refine ⟨fun hnan => ⟨?_, ?_⟩, fun hnan => ?_, fun hnan => ?_, fun hnan => ?_⟩
  · intro hc
    simp only [List.mem_filter] at hc
    rw [hnan] at hc
    exact Bool.false_ne_true hc.2
  · intro hc
    simp only [List.mem_filter] at hc
    rw [hnan] at hc
    exact Bool.false_ne_true hc.2
  · intro hc
    simp only [List.mem_filter] at hc
    rw [hnan] at hc
    exact Bool.false_ne_true hc.2
  · intro hc
    simp only [List.mem_filter] at hc
    rw [hnan] at hc
    exact Bool.false_ne_true hc.2
  · simp only [List.mem_filter]
    refine ⟨hr, ?_⟩
    rw [hnan]
    rfl

/-- C3 amended witness: on the concrete set `dfC3w`, whose one record has
a NaN engagement cell, segmentation succeeds and the NaN semantics hold
for that record. -/
theorem segment_nan_semantics_witness :
    ∃ segs, analyze_customer_segments dfC3w = Except.ok segs ∧
      ∀ r ∈ dfC3w.rows,
        (getCell r "engagement_score" = Value.nan →
          r ∉ segs.high_value.rows ∧ r ∉ segs.at_risk.rows) ∧
        (getCell r "customer_segment" = Value.nan →
          r ∉ segs.new_customers.rows) ∧
        (getCell r "loyalty_tier" = Value.nan →
          r ∉ segs.loyal_customers.rows) ∧
        (getCell r "country" = Value.nan → r ∈ segs.international.rows) :=
  segment_nan_semantics dfC3w (by decide) (by decide) (by decide) (by decide)

/-- C2 counterexample: `calculate_roi_metrics` DOES raise on a record set
whose frame lacks the engagement column — a `KeyError` propagates instead
of a partial snapshot with an unavailability flag. -/
theorem roi_missing_column_raises :
    calculate_roi_metrics dfNoEng = Except.error "KeyError: engagement_score" :=
  rfl

/-- C2 amended: when the engagement or the purchase-history column is
absent from the frame, `calculate_roi_metrics` raises `KeyError`; no
partial snapshot and no unavailability flag exist in the code. -/
theorem roi_keyerror_on_missing_column (df : DataFrame)
    (h : "engagement_score" ∉ df.cols ∨ "purchase_history" ∉ df.cols) :
    (calculate_roi_metrics df).isOk = false := by
  rcases hok : calculate_roi_metrics df with e | m
  · rfl
  · obtain ⟨h1, h2⟩ := calculate_ok_cols df m hok
    rcases h with h | h
    · exact absurd h1 h
    · exact absurd h2 h

/-- C2 amended witness: the metrics computation fails on the concrete
frame lacking the purchase-history column. -/
theorem roi_keyerror_on_missing_column_witness :
    (calculate_roi_metrics dfNoPurch).isOk = false :=
  roi_keyerror_on_missing_column dfNoPurch (Or.inr (by decide))

/-- The value `calculate_roi_metrics` computes on `dfC4`. -/
def metricsC4 : RoiMetrics := ⟨2, 50, some 35, 100⟩

/-- Evaluation of the metrics computation on the two-record set `dfC4`
(engagement 70 and 0, one purchase each). -/
theorem dfC4_metrics : calculate_roi_metrics dfC4 = Except.ok metricsC4 := by
  have h1 : seriesMean (dfC4.rows.map (fun r => getCell r "engagement_score")) =
      some 35 := by
    have hmap : dfC4.rows.map (fun r => getCell r "engagement_score") =
        [Value.num 70, Value.num 0] := by decide
    have hnum : numericVals [Value.num 70, Value.num 0] = [70, 0] := by decide
    rw [hmap]
    simp only [seriesMean, hnum]
    norm_num
  have h2 : seriesSum (dfC4.rows.map (fun r => getCell r "purchase_history")) * 50 =
      100 := by
    have hmp : dfC4.rows.map (fun r => getCell r "purchase_history") =
        [Value.num 1, Value.num 1] := by decide
    have hnum2 : numericVals [Value.num 1, Value.num 1] = [1, 1] := by decide
    rw [hmp]
    simp only [seriesSum, hnum2]
    norm_num
  have hc : (dfC4.rows.filter
      (fun r => valGe (getCell r "engagement_score") 70)).length = 1 := by decide
  have hl : dfC4.rows.length = 2 := by decide
  rw [calculate_ok dfC4 (by decide) (by decide), h1, h2, hc, hl]
  norm_num [metricsC4]

/-- C4 counterexample: on `dfC4` (one of two records above the threshold)
the code returns a high-engagement rate of 50 — the PERCENTAGE — while
the claimed value (count divided by total) is 1/2. -/
theorem engagement_rate_not_fraction :
    calculate_roi_metrics dfC4 = Except.ok metricsC4 ∧
      metricsC4.high_engagement_rate = 50 ∧ (50 : ℚ) ≠ 1 / 2 :=
  ⟨dfC4_metrics, rfl, by norm_num⟩

/-- C4 amended: the high-engagement rate equals 100 TIMES the fraction of
records whose engagement is at least the threshold 70, and is 0 on an
empty record set (no division-by-zero error: the division is guarded). -/
theorem engagement_rate_formula (df : DataFrame) (m : RoiMetrics)
    (h : calculate_roi_metrics df = Except.ok m) :
    m.total_customers = df.rows.length ∧
    m.high_engagement_rate =
      100 * (((df.rows.filter
        (fun r => valGe (getCell r "engagement_score") 70)).length : ℚ) /
          (df.rows.length : ℚ)) ∧
    (df.rows = [] → m.high_engagement_rate = 0) := by
  obtain ⟨h1, h2⟩ := calculate_ok_cols df m h
  rw [calculate_ok df h1 h2] at h
  simp only [Except.ok.injEq] at h
  subst h
  refine ⟨rfl, ?_, ?_⟩
  · rcases Nat.eq_zero_or_pos df.rows.length with hz | hp
    · have hnil : df.rows = [] := List.eq_nil_of_length_eq_zero hz
      rw [hnil]
      simp
    · simp only [hp, if_pos]
      ring
  · intro hrows
    rw [hrows]
    simp

/-- C4 amended witness: the formula instantiated on the concrete set
`dfC4`. -/
theorem engagement_rate_formula_witness :
    metricsC4.total_customers = dfC4.rows.length ∧
    metricsC4.high_engagement_rate =
      100 * (((dfC4.rows.filter
        (fun r => valGe (getCell r "engagement_score") 70)).length : ℚ) /
          (dfC4.rows.length : ℚ)) ∧
    (dfC4.rows = [] → metricsC4.high_engagement_rate = 0) :=
  engagement_rate_formula dfC4 metricsC4 dfC4_metrics

/-- C5 counterexample: on the empty record set the code reports the
average engagement as pandas NaN (modeled `none`), NOT as a defined
zero. -/
theorem empty_avg_engagement_is_nan :
    (calculate_roi_metrics dfEmpty).toOption.map RoiMetrics.avg_engagement =
        some none ∧
      some (none : Option ℚ) ≠ some (some (0 : ℚ)) :=
  ⟨by decide, by decide⟩

/-- C5 amended: the average engagement is the arithmetic mean of the
numeric engagement cells; when no record defines the field (including
the empty set) the reported value is pandas NaN (modeled `none`), not
zero. -/
theorem avg_engagement_semantics (df : DataFrame) (m : RoiMetrics)
    (h : calculate_roi_metrics df = Except.ok m) :
    m.avg_engagement =
      seriesMean (df.rows.map (fun r => getCell r "engagement_score")) ∧
    (numericVals (df.rows.map (fun r => getCell r "engagement_score")) = [] →
      m.avg_engagement = none) ∧
    (∀ ns, numericVals (df.rows.map (fun r => getCell r "engagement_score")) = ns →
      ns ≠ [] → m.avg_engagement = some (ns.sum / (ns.length : ℚ))) := by
  obtain ⟨h1, h2⟩ := calculate_ok_cols df m h
  rw [calculate_ok df h1 h2] at h
  simp only [Except.ok.injEq] at h
  subst h
  refine ⟨rfl, ?_, ?_⟩
  · intro hnil
    simp [seriesMean, hnil]
  · intro ns hns hne
    rcases ns with - | ⟨a, tl⟩
    · exact absurd rfl hne
    · simp [seriesMean, hns]

/-- The value `calculate_roi_metrics` computes on the empty set. -/
def metricsEmpty : RoiMetrics := ⟨0, 0, none, 0⟩

/-- Evaluation of the metrics computation on the empty record set. -/
theorem dfEmpty_metrics : calculate_roi_metrics dfEmpty = Except.ok metricsEmpty := by
  rw [calculate_ok dfEmpty (by decide) (by decide)]
  simp [metricsEmpty, seriesMean, seriesSum, numericVals, dfEmpty]

/-- C5 amended witness: the mean semantics instantiated on the empty
record set. -/
theorem avg_engagement_semantics_witness :
    metricsEmpty.avg_engagement =
      seriesMean (dfEmpty.rows.map (fun r => getCell r "engagement_score")) ∧
    (numericVals (dfEmpty.rows.map (fun r => getCell r "engagement_score")) = [] →
      metricsEmpty.avg_engagement = none) ∧
    (∀ ns, numericVals (dfEmpty.rows.map (fun r => getCell r "engagement_score")) = ns →
      ns ≠ [] → metricsEmpty.avg_engagement = some (ns.sum / (ns.length : ℚ))) :=
  avg_engagement_semantics dfEmpty metricsEmpty dfEmpty_metrics

/-- C9: with the hard-coded 50-per-unit value and purchase counts
[2, 0, 4], the revenue potential is (2 + 0 + 4) * 50 = 300. -/
theorem revenue_potential_sum_times_unit :
    (calculate_roi_metrics dfC9).toOption.map RoiMetrics.revenue_potential =
        some ((2 + 0 + 4) * 50) ∧
      ((2 + 0 + 4) * 50 : ℚ) = 300 := by
  constructor
  · have hmap : dfC9.rows.map (fun r => getCell r "purchase_history") =
        [Value.num 2, Value.num 0, Value.num 4] := by decide
    have hnum : numericVals [Value.num 2, Value.num 0, Value.num 4] =
        [2, 0, 4] := by decide
    rw [calculate_ok dfC9 (by decide) (by decide)]
    simp only [Except.toOption, Option.map, seriesSum, hmap, hnum]
    norm_num
  · norm_num

/-- The value the email loop computes on the three-target scenario. -/
def emailsC1 : EmailOutcome :=
  ⟨[⟨"Alice", "EMAIL BODY"⟩, ⟨"Cara", "EMAIL BODY"⟩],
   ["Error generating email for Bob: API down"]⟩

set_option maxRecDepth 100000 in
/-- C1 counterexample: in the three-target batch where target 2 (Bob)
fails, the returned list has TWO entries, not three — the failed target
is reported to the error display and omitted from the report, so there is
no per-target failure entry. -/
theorem email_report_drops_failed_target :
    email_campaign_generate clientC1 cfgC1 dfC1 = emailsC1 ∧
    dfC1.rows.length = 3 ∧
    (email_campaign_generate clientC1 cfgC1 dfC1).personalized_emails.length ≠
      dfC1.rows.length := by
  have h : email_campaign_generate clientC1 cfgC1 dfC1 = emailsC1 := rfl
  refine ⟨h, rfl, ?_⟩
  rw [h]
  decide

/-- C1 amended: the email loop returns the successful targets only, in
the caller's input order, and routes each failure to the error display;
no exception escapes (the loop is a total function), a failure never
aborts the batch, and every processed target contributes exactly one
outcome — but failed targets have NO entry in the returned list. -/
theorem email_partial_failure_semantics (client : String → Except String String)
    (cfg : EmailCfg) (target_df : DataFrame) :
    (email_campaign_generate client cfg target_df).personalized_emails =
      (target_df.rows.take 5).filterMap (emailSuccessOf client cfg) ∧
    (email_campaign_generate client cfg target_df).errors =
      (target_df.rows.take 5).filterMap (emailErrorOf client cfg) ∧
    (email_campaign_generate client cfg target_df).personalized_emails.length +
      (email_campaign_generate client cfg target_df).errors.length =
        min 5 target_df.rows.length := by
  have h := emailLoop_foldl client cfg (target_df.rows.take 5) ⟨[], []⟩
  unfold email_campaign_generate
  rw [h]
  refine ⟨by simp, by simp, ?_⟩
  simp only [List.nil_append]
  rw [emailLoop_count client cfg, List.length_take]

/-- C6 counterexample: the social media branch performs NO parsing: on
the JSON-in-prose reply it renders the whole raw text (prose included) as
a success, and on a reply with no JSON at all it still renders a success
— never a parse failure, and never an extracted item body. -/
theorem raw_reply_rendered_unparsed :
    social_media_generate (fun _ => Except.ok rawProseJson) cfgC6 dfC8 =
      SocialOutcome.success (socialSuccessBanner cfgC6) rawProseJson ∧
    social_media_generate (fun _ => Except.ok "no json here") cfgC6 dfC8 =
      SocialOutcome.success (socialSuccessBanner cfgC6) "no json here" ∧
    rawProseJson ≠ "hi" :=
  ⟨rfl, rfl, by decide⟩

/-- C6 amended: the raw reply is consumed unmodified: a client success is
rendered as-is as a success (no JSON extraction, no expected-key check,
no parse-failure result exists), and the only error outcome is the caught
client exception. -/
theorem raw_reply_passthrough (client : String → Except String String)
    (cfg : SocialCfg) (df : DataFrame) :
    (∀ reply, client (socialPrompt cfg df) = Except.ok reply →
      social_media_generate client cfg df =
        SocialOutcome.success (socialSuccessBanner cfg) reply) ∧
    (∀ m, social_media_generate client cfg df = SocialOutcome.errorShown m ↔
      ∃ e, client (socialPrompt cfg df) = Except.error e ∧ m = "Error: " ++ e) := by
  constructor
  · intro reply h
    unfold social_media_generate
    rw [h]
  · intro m
    constructor
    · intro h
      unfold social_media_generate at h
      rcases hc : client (socialPrompt cfg df) with e | r <;> rw [hc] at h
      · simp only [SocialOutcome.errorShown.injEq] at h
        exact ⟨e, rfl, h.symm⟩
      · exact absurd h (by simp)
    · rintro ⟨e, he, rfl⟩
      unfold social_media_generate
      rw [he]

/-- C6 amended witness: pass-through instantiated on a concrete client
reply. -/
theorem raw_reply_passthrough_witness :
    social_media_generate (fun _ => Except.ok "REPLY") cfgC6 dfC8 =
      SocialOutcome.success (socialSuccessBanner cfgC6) "REPLY" :=
  (raw_reply_passthrough (fun _ => Except.ok "REPLY") cfgC6 dfC8).1 "REPLY" rfl

/-- The ad settings used by the prompt-cap witness. -/
def adCfgW : AdCfg := ⟨"Google Ads", "Traffic", "All Customers", 3, "Direct", true⟩

/-- A 500-record set exercising the prompt caps. -/
def dfBig : DataFrame := ⟨stdCols, List.replicate 500 rowHigh⟩

/-- C7: every prompt builder embeds at most its cap of records — the
first `cap` rows in input order (`head`): the social prompt embeds
`take 10`, the ad prompt `take 5`, the email loop processes at most 5
targets; with at least 500 input rows exactly 5 records are retained by
the 5-cap. -/
theorem prompt_record_cap (df : DataFrame) (n : Nat) (scfg : SocialCfg)
    (acfg : AdCfg) (ecfg : EmailCfg) (client : String → Except String String) :
    (dfHead df n).rows = df.rows.take n ∧
    socialPrompt scfg df =
      socialPromptHeader scfg ++ rowsText (df.rows.take 10) ++
        socialPromptFooter scfg ∧
    adPrompt acfg df =
      adPromptHeader acfg ++ rowsText (df.rows.take 5) ++ adPromptFooter acfg ∧
    (dfHead df n).rows.length = min n df.rows.length ∧
    (email_campaign_generate client ecfg df).personalized_emails.length ≤ 5 ∧
    (500 ≤ df.rows.length → (dfHead df 5).rows.length = 5) := by
  refine ⟨rfl, rfl, rfl, ?_, ?_, ?_⟩
  · simp [dfHead, List.length_take]
  · have h := emailLoop_foldl client ecfg (df.rows.take 5) ⟨[], []⟩
    unfold email_campaign_generate
    rw [h]
    simp only [List.nil_append]
    calc ((df.rows.take 5).filterMap (emailSuccessOf client ecfg)).length
        ≤ (df.rows.take 5).length := List.length_filterMap_le _ _
      _ ≤ 5 := by
          rw [List.length_take]
          exact Nat.min_le_left 5 _
  · intro h500
    simp only [dfHead, List.length_take]
    omega

set_option maxRecDepth 100000 in
/-- C7 witness: on the 500-record set the 5-cap keeps exactly 5 rows. -/
theorem prompt_record_cap_witness : (dfHead dfBig 5).rows.length = 5 :=
  (prompt_record_cap dfBig 5 cfgC6 adCfgW cfgC1
    (fun _ => Except.ok "X")).2.2.2.2.2 (by simp [dfBig])

end MarketingDemo
